import Mathlib

/-!
Shallow embedding of the book-management service (FastAPI + SQLAlchemy
sources `main.py`, `schemas.py`, `models.py`, `llama_service.py`) and
verification of its specification claims.

Ratings are modelled as rationals (the source stores Python floats and all
arithmetic on them is sums, means and comparisons on exact decimal inputs).
SQL/Python string operations (`str.strip`, `str.split(",")`, `ILIKE
'%p%'`) are embedded as executable functions on character lists.
The external LLM call (`llama_service`) is modelled as an abstract
`Except String String` outcome: `.ok text` for a successful completion,
`.error e` for any provider failure (network error, non-success status,
malformed payload), matching the single `except Exception` handling in
the source.
-/

namespace BookMgmt

/-! ### Character/string helpers (embedding Python/SQL string operations) -/

/-- Whitespace test used by Python `str.strip()` (ASCII whitespace). -/
def isSpaceChar (c : Char) : Bool :=
  c == ' ' || c == '\t' || c == '\n' || c == '\r' || c == '\x0b' || c == '\x0c'

/-- ASCII lower-casing of one character, as done by SQL `ILIKE` /
Python `str.lower()` on ASCII text. -/
def asciiLower (c : Char) : Char :=
  if 'A' ≤ c ∧ c ≤ 'Z' then Char.ofNat (c.toNat + 32) else c

/-- Lower-case a character list. -/
def lowerChars (l : List Char) : List Char := l.map asciiLower

/-- Python `str.strip()`: drop surrounding whitespace. -/
def trimChars (l : List Char) : List Char :=
  ((l.dropWhile isSpaceChar).reverse.dropWhile isSpaceChar).reverse

/-- Python `s.split(",")`: split on every comma, keeping empty parts. -/
def splitComma : List Char → List (List Char)
  | [] => [[]]
  | c :: rest =>
    let r := splitComma rest
    if c == ',' then [] :: r
    else
      match r with
      | [] => [[c]]
      | h :: t => (c :: h) :: t

/-- `needle` matches at the head of `hay`. -/
def headMatch : List Char → List Char → Bool
  | [], _ => true
  | _ :: _, [] => false
  | a :: as, b :: bs => a == b && headMatch as bs

/-- `needle` occurs contiguously somewhere inside `hay`
(the `%needle%` part of a SQL `LIKE` pattern). -/
def containsSub (hay needle : List Char) : Bool :=
  match hay with
  | [] => needle.isEmpty
  | _ :: t => headMatch needle hay || containsSub t needle

/-- Case-insensitive substring test: embeds SQLAlchemy
`column.ilike(f"%{pat}%")`. -/
def ilikeContains (pat s : String) : Bool :=
  containsSub (lowerChars s.data) (lowerChars pat.data)

/-- Decimal digit run to a natural number. -/
def digitsToNat (l : List Char) : Nat :=
  l.foldl (fun a c => a * 10 + (c.toNat - '0'.toNat)) 0

/-- Python `int(s)` on a decimal string: optional surrounding whitespace,
optional sign, then a non-empty digit run; anything else raises
`ValueError`, modelled as `none`. -/
def parsePyInt (s : String) : Option Int :=
  let t := trimChars s.data
  match t with
  | '-' :: rest =>
    if rest ≠ [] ∧ rest.all Char.isDigit then some (-(digitsToNat rest : Int)) else none
  | '+' :: rest =>
    if rest ≠ [] ∧ rest.all Char.isDigit then some (digitsToNat rest : Int) else none
  | cs =>
    if cs ≠ [] ∧ cs.all Char.isDigit then some (digitsToNat cs : Int) else none

/-! ### Data model (`models.py`, `schemas.py`) -/

/-- `models.Book`. -/
structure Book where
  id : Int
  title : String
  author : String
  genre : String
  year_published : Int
  summary : Option String
deriving DecidableEq, Repr

/-- `models.Review`. -/
structure Review where
  id : Int
  book_id : Int
  user_id : Int
  review_text : String
  rating : ℚ
deriving DecidableEq, Repr

/-- `models.User` (`is_active` is a `String` column in the source,
set to the literal `"true"` at registration). -/
structure User where
  id : Int
  username : String
  email : String
  full_name : Option String
  hashed_password : String
  is_active : String
  is_admin : Bool
deriving DecidableEq, Repr

/-! ### Rating aggregation (`get_book_summary`, lines 278-305) -/

/-- `select(Review).where(Review.book_id == bid)`: the reviews of one book. -/
def bookReviews (reviews : List Review) (bid : Int) : List Review :=
  reviews.filter (fun r => r.book_id == bid)

/-- `sum(r.rating for r in reviews) / len(reviews)` (and SQL `avg`). -/
def avgRating (rs : List Review) : ℚ :=
  (rs.map Review.rating).sum / rs.length

/-- `func.coalesce(avg_rating_subq.c.avg_rating, 0)` after the outer join:
the average rating of a book, or `0` when it has no reviews. -/
def avgOrZero (reviews : List Review) (b : Book) : ℚ :=
  let rs := bookReviews reviews b.id
  if rs.isEmpty then 0 else avgRating rs

/-- Round-half-to-even to an integer, as Python `round` does. -/
def roundHalfEven (q : ℚ) : ℤ :=
  let f := ⌊q⌋
  if q - f < 1 / 2 then f
  else if q - f > 1 / 2 then f + 1
  else if f % 2 = 0 then f else f + 1

/-- Python `round(q, 2)`. -/
def pyRound2 (q : ℚ) : ℚ := (roundHalfEven (q * 100) : ℚ) / 100

/-- `schemas.BookSummaryResponse`. -/
structure BookSummaryResponse where
  book_id : Int
  title : String
  author : String
  summary : Option String
  average_rating : ℚ
  total_reviews : Nat
  review_summary : Option String
deriving DecidableEq, Repr

/-- `GET /books/{book_id}/summary` (`get_book_summary`), after the book has
been found: load the book's reviews, compute the average, try the summary
provider only when there is at least one review, and swallow any provider
failure by returning the response without a review summary. -/
def getBookSummary (book : Book) (allReviews : List Review)
    (provider : Except String String) : BookSummaryResponse :=
  let reviews := bookReviews allReviews book.id
  let avg_rating : ℚ := if reviews.isEmpty then 0 else avgRating reviews
  let review_summary : Option String :=
    if reviews.isEmpty then none
    else
      match provider with
      | Except.ok s => some s
      | Except.error _ => none
  { book_id := book.id
    title := book.title
    author := book.author
    summary := book.summary
    average_rating := pyRound2 avg_rating
    total_reviews := reviews.length
    review_summary := review_summary }

/-- `schemas.GenerateSummaryResponse`. -/
structure GenerateSummaryResponse where
  summary : String
deriving DecidableEq, Repr

/-- `POST /generate-summary` (`generate_summary`): a provider failure is
surfaced as HTTP 500 with a descriptive detail string. -/
def generateSummary (provider : Except String String) :
    Except (Nat × String) GenerateSummaryResponse :=
  match provider with
  | Except.ok s => Except.ok ⟨s⟩
  | Except.error e => Except.error (500, "Failed to generate summary: " ++ e)

/-! ### Recommendation engine (`get_recommendations`, lines 326-412) -/

/-- Genre condition (lines 337-342): split the `preferred_genres` query
string on commas, strip each part, and keep a book when its genre matches
any part case-insensitively as a substring (`ILIKE '%part%'`). -/
def genreKeep (preferred : String) (b : Book) : Bool :=
  let genres_list := (splitComma preferred.data).map trimChars
  genres_list.any (fun g => containsSub (lowerChars b.genre.data) (lowerChars g))

/-- The `min_rating` subquery (lines 347-352): book ids that appear in some
review, grouped by book id, whose average rating is at least `m`. -/
def ratedBookIds (reviews : List Review) (m : ℚ) : List Int :=
  ((reviews.map Review.book_id).dedup).filter
    (fun bid => decide (m ≤ avgRating (bookReviews reviews bid)))

/-- Rating condition (line 353): `Book.id.in_(select(subquery.c.book_id))`. -/
def ratingKeep (reviews : List Review) (m : ℚ) (b : Book) : Bool :=
  decide (b.id ∈ ratedBookIds reviews m)

/-- Exclusion condition (lines 356-364): parse the `user_id` query string
as an integer; on success drop books the user has reviewed, on failure
apply no condition at all. -/
def exclusionKeep (reviews : List Review) (uid : String) (b : Book) : Bool :=
  match parsePyInt uid with
  | some n => !(reviews.any (fun r => r.user_id == n && r.book_id == b.id))
  | none => true

/-- The conjunction of conditions collected into `conditions` and applied
with `and_(*conditions)` (lines 335-367). A genre or user-id string that is
`None` or empty is falsy in Python and contributes no condition. -/
def keepBook (reviews : List Review) (pg : Option String) (mr : Option ℚ)
    (uid : Option String) (b : Book) : Bool :=
  (match pg with
   | some g => if g = "" then true else genreKeep g b
   | none => true)
  && (match mr with
      | some m => ratingKeep reviews m b
      | none => true)
  && (match uid with
      | some s => if s = "" then true else exclusionKeep reviews s b
      | none => true)

/-- The filtered candidate set of the recommendation query. -/
def candidates (books : List Book) (reviews : List Review) (pg : Option String)
    (mr : Option ℚ) (uid : Option String) : List Book :=
  books.filter (keepBook reviews pg mr uid)

/-- The `ORDER BY coalesce(avg_rating, 0) DESC, Book.id DESC` order
(lines 377-380): `b1` comes no later than `b2`. -/
def recRel (reviews : List Review) (b1 b2 : Book) : Prop :=
  avgOrZero reviews b2 < avgOrZero reviews b1 ∨
    (avgOrZero reviews b1 = avgOrZero reviews b2 ∧ b2.id ≤ b1.id)

instance recRelDecidable (reviews : List Review) : DecidableRel (recRel reviews) :=
  fun b1 b2 => by unfold recRel; infer_instance

instance recRelTotal (reviews : List Review) : IsTotal Book (recRel reviews) where
  total b1 b2 := by
    unfold recRel
    rcases lt_trichotomy (avgOrZero reviews b1) (avgOrZero reviews b2) with h | h | h
    · exact Or.inr (Or.inl h)
    · rcases le_total b1.id b2.id with hid | hid
      · exact Or.inr (Or.inr ⟨h.symm, hid⟩)
      · exact Or.inl (Or.inr ⟨h, hid⟩)
    · exact Or.inl (Or.inl h)

instance recRelTrans (reviews : List Review) : IsTrans Book (recRel reviews) where
  trans b1 b2 b3 h12 h23 := by
    unfold recRel at *
    rcases h12 with h12 | ⟨he12, hi12⟩
    · rcases h23 with h23 | ⟨he23, hi23⟩
      · exact Or.inl (h23.trans h12)
      · exact Or.inl (he23 ▸ h12)
    · rcases h23 with h23 | ⟨he23, hi23⟩
      · exact Or.inl (he12 ▸ h23)
      · exact Or.inr ⟨he12.trans he23, hi23.trans hi12⟩

/-- Sort by `(coalesce(avg,0) DESC, id DESC)` and `LIMIT 10`
(lines 376-381, and identically lines 393-401 for the fallback). -/
def rankBooks (reviews : List Review) (l : List Book) : List Book :=
  (l.insertionSort (recRel reviews)).take 10

/-- Fractional decimal digits of `q ∈ [0, 1)`, most significant first;
`fuel` bounds the length (a Python float never prints more digits). -/
def fracDigitsAux : Nat → ℚ → List Char
  | 0, _ => []
  | fuel + 1, q =>
    if q = 0 then []
    else
      let d := ⌊q * 10⌋
      Char.ofNat ('0'.toNat + d.toNat) :: fracDigitsAux fuel (q * 10 - d)

/-- Python `repr`/f-string form of a non-negative float with an exact short
decimal expansion (e.g. `4.5` prints as `"4.5"`, `4` as `"4.0"`). -/
def pyFloatReprNonneg (q : ℚ) : String :=
  let ip := ⌊q⌋
  let frac := fracDigitsAux 17 (q - ip)
  toString ip.toNat ++ "." ++ (if frac.isEmpty then "0" else String.mk frac)

/-- Python f-string formatting of a float value. -/
def pyFloatRepr (q : ℚ) : String :=
  if q < 0 then "-" ++ pyFloatReprNonneg (-q) else pyFloatReprNonneg q

/-- `genre_text` (line 405): the original `preferred_genres` string, or
`"all genres"` when it is `None` or empty (Python falsy). -/
def genreText (pg : Option String) : String :=
  match pg with
  | some g => if g = "" then "all genres" else g
  | none => "all genres"

/-- `rating_text` (line 406): `f" with rating >= {min_rating}" if min_rating
else ""` — note the Python truthiness test: a `min_rating` of `0.0` is falsy
and produces the empty string. -/
def ratingText (mr : Option ℚ) : String :=
  match mr with
  | some m => if m = 0 then "" else " with rating >= " ++ pyFloatRepr m
  | none => ""

/-- The fixed fallback reason string (line 403). -/
def fallbackReason : String :=
  "Showing popular books as no specific recommendations found."

/-- `schemas.RecommendationResponse`. -/
structure RecommendationResult where
  recommendations : List Book
  reason : String
deriving DecidableEq, Repr

/-- `GET /recommendations` (`get_recommendations`): filter, rank, limit to
10; when nothing survives, fall back to ranking all books with the fixed
fallback reason. -/
def recommend (books : List Book) (reviews : List Review) (pg : Option String)
    (mr : Option ℚ) (uid : Option String) : RecommendationResult :=
  let ranked := rankBooks reviews (candidates books reviews pg mr uid)
  if ranked.isEmpty then
    { recommendations := rankBooks reviews books
      reason := fallbackReason }
  else
    { recommendations := ranked
      reason := "Recommended based on your preferences: " ++ genreText pg ++ ratingText mr }

/-! ### Review creation (`create_review`, lines 211-240) -/

/-- The raw JSON body of `POST /books/{id}/reviews`. `schemas.ReviewCreate`
declares only `review_text` and `rating`; a client-supplied `user_id` field
is not part of the schema and is dropped by validation. -/
structure ReviewBody where
  review_text : String
  rating : ℚ
  user_id : Option Int
deriving DecidableEq, Repr

/-- `schemas.ReviewCreate`: the validated review-creation payload. -/
structure ReviewCreate where
  review_text : String
  rating : ℚ
deriving DecidableEq, Repr

/-- Pydantic validation of the body against `ReviewCreate`: unknown fields
(such as `user_id`) are ignored. -/
def parseReviewCreate (b : ReviewBody) : ReviewCreate :=
  ⟨b.review_text, b.rating⟩

/-- `create_review`: 404 when the book does not exist, otherwise store a
review whose `user_id` is the authenticated caller's id (`current_user.id`),
never a value from the body. `nid` is the id the database assigns. -/
def createReview (book_id : Int) (body : ReviewBody) (current_user : User)
    (books : List Book) (nid : Int) : Except (Nat × String) Review :=
  if books.any (fun b => b.id == book_id) then
    let review := parseReviewCreate body
    Except.ok
      { id := nid
        book_id := book_id
        user_id := current_user.id
        review_text := review.review_text
        rating := review.rating }
  else
    Except.error (404, "Book with id " ++ toString book_id ++ " not found")

/-! ### Registration (`register`, lines 50-84) -/

/-- `schemas.UserCreate`: the registration body; `is_admin` defaults to
`false` but is client-controlled. -/
structure UserCreate where
  username : String
  email : String
  full_name : Option String
  password : String
  is_admin : Bool
deriving DecidableEq, Repr

/-- `POST /register`: no authentication dependency at all; reject duplicate
username/email with 400, otherwise create the user with `is_active` the
string literal `"true"` and `is_admin` copied from the request body.
`hash` is the password-hashing function, `nid` the id the database
assigns. -/
def register (existing : List User) (u : UserCreate) (hash : String → String)
    (nid : Int) : Except (Nat × String) User :=
  if existing.any (fun e => e.username == u.username) then
    Except.error (400, "Username already registered")
  else if existing.any (fun e => e.email == u.email) then
    Except.error (400, "Email already registered")
  else
    Except.ok
      { id := nid
        username := u.username
        email := u.email
        full_name := u.full_name
        hashed_password := hash u.password
        is_active := "true"
        is_admin := u.is_admin }

/-! ### Concrete fixtures used by witnesses and counterexamples -/

def demoB1 : Book := ⟨1, "Book One", "Author A", "G1", 2001, none⟩

def demoB2 : Book := ⟨2, "Book Two", "Author B", "G2", 2002, none⟩

def demoB3 : Book := ⟨3, "Book Three", "Author C", "G3", 2003, none⟩

def histBook : Book := ⟨4, "Past Days", "Author D", "Historical Fiction", 1999, none⟩

def rvB1 : Review := ⟨1, 1, 1, "good", 3⟩

def rv73 : Review := ⟨9, 3, 7, "fine", 4⟩

def demoReviews : List Review := [⟨1, 1, 1, "ok", 3⟩, ⟨2, 2, 1, "great", 5⟩, ⟨3, 3, 1, "great", 5⟩]

def demoUser : User := ⟨42, "u", "u@example.com", none, "hash", "true", false⟩

/-! ### Shared helper lemmas -/

theorem bookReviews_eq_self {R : List Review} {bid : Int}
    (h : ∀ r ∈ R, r.book_id = bid) : bookReviews R bid = R := by
  unfold bookReviews
  exact List.filter_eq_self.mpr fun r hr => by simpa using h r hr

theorem bookReviews_ne_nil_iff (reviews : List Review) (bid : Int) :
    bookReviews reviews bid ≠ [] ↔ ∃ r ∈ reviews, r.book_id = bid := by
  unfold bookReviews
  rw [Ne, List.filter_eq_nil_iff]
  push_neg
  simp

theorem ratingKeep_eq_true_iff (reviews : List Review) (m : ℚ) (b : Book) :
    ratingKeep reviews m b = true ↔
      bookReviews reviews b.id ≠ [] ∧ m ≤ avgRating (bookReviews reviews b.id) := by
  rw [ratingKeep, decide_eq_true_eq, ratedBookIds, List.mem_filter,
    List.mem_dedup, bookReviews_ne_nil_iff]
  simp [eq_comm]

theorem pyRound2_zero : pyRound2 0 = 0 := by
  simp [pyRound2, roundHalfEven]

/-! ### Claim theorems -/

/-- C1: for every sequence `R` of reviews of one book, the summary
aggregate has `total_reviews` equal to the length of `R`, and
`average_rating` equal to the arithmetic mean `sum(ratings)/|R|` rounded to
2 decimal places when `R` is non-empty, and `0` when `R` is empty. -/
theorem summary_aggregate_correct (book : Book) (R : List Review)
    (p : Except String String) (h : ∀ r ∈ R, r.book_id = book.id) :
    (getBookSummary book R p).total_reviews = R.length ∧
    (getBookSummary book R p).average_rating =
      (if R = [] then (0 : ℚ) else pyRound2 ((R.map Review.rating).sum / R.length)) := by
  have hbr : bookReviews R book.id = R := bookReviews_eq_self h
  unfold getBookSummary
  rw [hbr]
  cases R with
  | nil => simpa using pyRound2_zero
  | cons r rs => simp [avgRating]

/-- C1 witness: a single-review book evaluated concretely. -/
theorem summary_aggregate_correct_witness :
    (getBookSummary demoB1 [rvB1] (Except.ok "s")).total_reviews = [rvB1].length ∧
    (getBookSummary demoB1 [rvB1] (Except.ok "s")).average_rating =
      (if ([rvB1] : List Review) = [] then (0 : ℚ)
       else pyRound2 (([rvB1].map Review.rating).sum / ([rvB1] : List Review).length)) :=
  summary_aggregate_correct demoB1 [rvB1] (Except.ok "s") (by decide)

/-- C8: a provider failure is swallowed in the aggregate book-summary
operation (the `review_summary` field is `none` while the rating aggregate
is unchanged), but in the direct generate-summary operation the same
failure surfaces as a 500 error with a descriptive message. -/
theorem provider_failure_policy (book : Book) (R : List Review) (e : String) :
    (getBookSummary book R (Except.error e)).review_summary = none ∧
    (∀ p : Except String String,
      (getBookSummary book R (Except.error e)).average_rating
          = (getBookSummary book R p).average_rating ∧
      (getBookSummary book R (Except.error e)).total_reviews
          = (getBookSummary book R p).total_reviews) ∧
    generateSummary (Except.error e)
      = Except.error (500, "Failed to generate summary: " ++ e) := by
  refine ⟨?_, fun p => ⟨rfl, rfl⟩, rfl⟩
  unfold getBookSummary
  cases hb : (bookReviews R book.id).isEmpty <;> simp [hb]

/-- C9: the stored review's `user_id` equals the authenticated caller's id,
regardless of any `user_id` value supplied in the request body. -/
theorem create_review_binds_caller (book_id : Int) (body : ReviewBody)
    (current_user : User) (books : List Book) (nid : Int)
    (h : ∃ b ∈ books, b.id = book_id) :
    ∃ rv, createReview book_id body current_user books nid = Except.ok rv ∧
      rv.user_id = current_user.id ∧ rv.review_text = body.review_text ∧
      rv.rating = body.rating ∧
      ∀ u : Option Int,
        createReview book_id { body with user_id := u } current_user books nid
          = createReview book_id body current_user books nid := by
  have hg : (books.any fun b => b.id == book_id) = true := by
    obtain ⟨b, hb, he⟩ := h
    exact List.any_eq_true.mpr ⟨b, hb, by simpa using he⟩
  refine ⟨{ id := nid, book_id := book_id, user_id := current_user.id,
            review_text := body.review_text, rating := body.rating },
      ?_, rfl, rfl, rfl, fun u => ?_⟩ <;>
    simp [createReview, hg, parseReviewCreate]

/-- C9 witness: a concrete body carrying a foreign `user_id` of 99 still
stores the authenticated user's id 42. -/
theorem create_review_binds_caller_witness :
    ∃ rv, createReview 1 ⟨"nice", 4, some 99⟩ demoUser [demoB1] 7 = Except.ok rv ∧
      rv.user_id = demoUser.id ∧
      rv.review_text = (⟨"nice", 4, some 99⟩ : ReviewBody).review_text ∧
      rv.rating = (⟨"nice", 4, some 99⟩ : ReviewBody).rating ∧
      ∀ u : Option Int,
        createReview 1 { (⟨"nice", 4, some 99⟩ : ReviewBody) with user_id := u } demoUser [demoB1] 7
          = createReview 1 ⟨"nice", 4, some 99⟩ demoUser [demoB1] 7 :=
  create_review_binds_caller 1 ⟨"nice", 4, some 99⟩ demoUser [demoB1] 7 (by decide)

/-- C10: registration has no authentication input at all, copies the
request body's `is_admin` flag into the created user, and sets the
created user's `is_active` flag to the string `"true"`. -/
theorem register_admin_flag (existing : List User) (u : UserCreate)
    (hash : String → String) (nid : Int)
    (hu : ∀ e ∈ existing, e.username ≠ u.username)
    (he : ∀ e ∈ existing, e.email ≠ u.email) :
    ∃ usr, register existing u hash nid = Except.ok usr ∧
      usr.is_admin = u.is_admin ∧ usr.is_active = "true" ∧
      usr.username = u.username ∧ usr.email = u.email := by
  have h1 : (existing.any fun e => e.username == u.username) = false := by
    rw [List.any_eq_false]
    intro e hee
    simpa using hu e hee
  have h2 : (existing.any fun e => e.email == u.email) = false := by
    rw [List.any_eq_false]
    intro e hee
    simpa using he e hee
  refine ⟨{ id := nid, username := u.username, email := u.email,
            full_name := u.full_name, hashed_password := hash u.password,
            is_active := "true", is_admin := u.is_admin },
      ?_, rfl, rfl, rfl, rfl⟩
  simp [register, h1, h2]

/-- C10 witness: an unauthenticated registration request with
`is_admin = true` yields an administrator account with `is_active = "true"`. -/
theorem register_admin_flag_witness :
    ∃ usr, register [] ⟨"eve", "eve@example.com", none, "pw", true⟩ (fun s => s) 1
        = Except.ok usr ∧
      usr.is_admin = (⟨"eve", "eve@example.com", none, "pw", true⟩ : UserCreate).is_admin ∧
      usr.is_active = "true" ∧
      usr.username = (⟨"eve", "eve@example.com", none, "pw", true⟩ : UserCreate).username ∧
      usr.email = (⟨"eve", "eve@example.com", none, "pw", true⟩ : UserCreate).email :=
  register_admin_flag [] ⟨"eve", "eve@example.com", none, "pw", true⟩ (fun s => s) 1
    (by decide) (by decide)

theorem rankBooks_eq_nil_iff (reviews : List Review) (l : List Book) :
    rankBooks reviews l = [] ↔ l = [] := by
  unfold rankBooks
  rw [List.take_eq_nil_iff]
  constructor
  · rintro (h | h)
    · exact absurd h (by decide)
    · simpa [List.length_insertionSort] using congrArg List.length h
  · rintro rfl
    simp [List.insertionSort]

theorem prefReason_ne_fallback (pg : Option String) (mr : Option ℚ) :
    "Recommended based on your preferences: " ++ genreText pg ++ ratingText mr
      ≠ fallbackReason := by
  intro h
  have hd : ("Recommended based on your preferences: " ++ genreText pg ++ ratingText mr).data.head?
      = fallbackReason.data.head? := by rw [h]
  have h1 : ("Recommended based on your preferences: ").data.head? = some 'R' := by decide
  have h2 : fallbackReason.data.head? = some 'S' := by decide
  rw [String.data_append, String.data_append, List.head?_append, List.head?_append, h1, h2] at hd
  simp [Option.or] at hd

/-- C4 counterexample: the claim says a zero-review book (average `0.0`)
is kept when `minRating = 0`; in the code the rating filter is a subquery
over existing reviews, so a zero-review book is dropped even though its
average `0` satisfies `0 ≤ 0`. -/
theorem rating_filter_zero_reviews_cx :
    ¬ (ratingKeep [] 0 demoB1 = true ↔ (0 : ℚ) ≤ avgOrZero [] demoB1) := by
  decide

/-- C4 amended: `minRating = 0` is still treated as given (the filter does
not no-op), and a book is kept by the rating filter iff it has at least one
review and the average of its reviews is `≥ minRating`; a book with zero
reviews is always excluded when `minRating` is given, even for
`minRating ≤ 0`. -/
theorem rating_filter_amended (reviews : List Review) (m : ℚ) (b : Book) :
    keepBook reviews none (some m) none b = ratingKeep reviews m b ∧
    (ratingKeep reviews m b = true ↔
      bookReviews reviews b.id ≠ [] ∧ m ≤ avgRating (bookReviews reviews b.id)) :=
  ⟨by simp [keepBook], ratingKeep_eq_true_iff reviews m b⟩

/-- C3: when the filtered candidate set is empty the recommendation
ignores all filters, ranks all books by the same (average desc, id desc)
rule limited to 10, with exactly the fixed fallback reason string; when
the candidate set is non-empty the fallback is not taken. -/
theorem recommend_fallback_policy (books : List Book) (reviews : List Review)
    (pg : Option String) (mr : Option ℚ) (uid : Option String) :
    (candidates books reviews pg mr uid = [] →
      (recommend books reviews pg mr uid).recommendations
          = (List.insertionSort (recRel reviews) books).take 10 ∧
      (recommend books reviews pg mr uid).reason
          = "Showing popular books as no specific recommendations found.") ∧
    (candidates books reviews pg mr uid ≠ [] →
      (recommend books reviews pg mr uid).recommendations
          = (List.insertionSort (recRel reviews) (candidates books reviews pg mr uid)).take 10 ∧
      (recommend books reviews pg mr uid).reason
          ≠ "Showing popular books as no specific recommendations found.") := by
  constructor
  · intro hc
    constructor <;> simp [recommend, rankBooks, hc, List.insertionSort, fallbackReason]
  · intro hc
    have hs : List.insertionSort (recRel reviews) (candidates books reviews pg mr uid) ≠ [] :=
      fun h => hc (by simpa [List.length_insertionSort] using congrArg List.length h)
    have hne := prefReason_ne_fallback pg mr
    simp only [fallbackReason] at hne
    constructor
    · simp [recommend, rankBooks, hs]
    · simpa [recommend, rankBooks, hs] using hne

/-- C3 witness: a genre filter matching no book triggers the fallback. -/
theorem recommend_fallback_policy_witness :
    (recommend [demoB1] [] (some "Sci-Fi") none none).recommendations
        = (List.insertionSort (recRel []) [demoB1]).take 10 ∧
    (recommend [demoB1] [] (some "Sci-Fi") none none).reason
        = "Showing popular books as no specific recommendations found." :=
  (recommend_fallback_policy [demoB1] [] (some "Sci-Fi") none none).1 (by decide)

/-- C5 counterexample: book 3 is reviewed by user 7, yet the
recommendation call with `excludeUserId = "7"` still returns book 3,
because the exclusion empties the candidate set and the fallback ignores
all filters. -/
theorem exclusion_fallback_cx :
    demoB3 ∈ (recommend [demoB3] [rv73] none none (some "7")).recommendations := by
  decide

/-- C5 amended: a parseable `excludeUserId` removes every book reviewed by
that user from the candidate set — so such a book is absent from the
result whenever the candidate set stays non-empty, though the popularity
fallback may still return it — and a non-parseable `excludeUserId` is
silently ignored, leaving the candidate set exactly as with no exclusion
given. -/
theorem exclusion_filter_amended (books : List Book) (reviews : List Review)
    (pg : Option String) (mr : Option ℚ) (s : String) (n : Int) :
    (parsePyInt s = some n →
      (∀ b ∈ candidates books reviews pg mr (some s),
        ¬ ∃ r ∈ reviews, r.user_id = n ∧ r.book_id = b.id) ∧
      (candidates books reviews pg mr (some s) ≠ [] →
        ∀ b ∈ (recommend books reviews pg mr (some s)).recommendations,
          ¬ ∃ r ∈ reviews, r.user_id = n ∧ r.book_id = b.id)) ∧
    (parsePyInt s = none →
      candidates books reviews pg mr (some s) = candidates books reviews pg mr none) := by
  constructor
  · intro hp
    have hs0 : s ≠ "" := by
      rintro rfl
      rw [show parsePyInt "" = none from rfl] at hp
      cases hp
    have key : ∀ b ∈ candidates books reviews pg mr (some s),
        ¬ ∃ r ∈ reviews, r.user_id = n ∧ r.book_id = b.id := by
      rintro b hb ⟨r, hr, hu, hbk⟩
      have hkeep : keepBook reviews pg mr (some s) b = true := (List.mem_filter.mp hb).2
      unfold keepBook at hkeep
      rw [Bool.and_eq_true, Bool.and_eq_true] at hkeep
      obtain ⟨⟨-, -⟩, h3⟩ := hkeep
      change (if s = "" then true else exclusionKeep reviews s b) = true at h3
      rw [if_neg hs0, exclusionKeep, hp] at h3
      have hall : (reviews.any fun r => r.user_id == n && r.book_id == b.id) = false := by
        simpa using h3
      have := (List.any_eq_false.mp hall) r hr
      simp [hu, hbk] at this
    refine ⟨key, fun hcne b hb => key b ?_⟩
    have hs : List.insertionSort (recRel reviews) (candidates books reviews pg mr (some s)) ≠ [] :=
      fun h => hcne (by simpa [List.length_insertionSort] using congrArg List.length h)
    have hrec : (recommend books reviews pg mr (some s)).recommendations
        = rankBooks reviews (candidates books reviews pg mr (some s)) := by
      simp [recommend, rankBooks, hs]
    rw [hrec] at hb
    exact (List.perm_insertionSort (recRel reviews) _).subset
      ((List.take_sublist _ _).subset hb)
  · intro hp
    unfold candidates
    congr 1
    funext b
    by_cases hs0 : s = "" <;> simp [keepBook, exclusionKeep, hp, hs0]

/-- C5 witness: user 7 reviewed book 3; with `excludeUserId = "7"` book 3
is not among the candidates, and `excludeUserId = "abc"` leaves the
candidate set untouched. -/
theorem exclusion_filter_amended_witness :
    (∀ b ∈ candidates [demoB1, demoB3] [rv73] none none (some "7"),
      ¬ ∃ r ∈ [rv73], r.user_id = 7 ∧ r.book_id = b.id) ∧
    candidates [demoB1] [rv73] none none (some "abc")
      = candidates [demoB1] [rv73] none none none :=
  ⟨((exclusion_filter_amended [demoB1, demoB3] [rv73] none none "7" 7).1 (by decide)).1,
   (exclusion_filter_amended [demoB1] [rv73] none none "abc" 0).2 (by decide)⟩

theorem headMatch_iff (n h : List Char) : headMatch n h = true ↔ ∃ t, h = n ++ t := by
  induction n generalizing h with
  | nil => simp [headMatch]
  | cons a as ih =>
    cases h with
    | nil => simp [headMatch]
    | cons b bs =>
      simp only [headMatch, Bool.and_eq_true, beq_iff_eq, ih]
      constructor
      · rintro ⟨rfl, t, rfl⟩
        exact ⟨t, rfl⟩
      · rintro ⟨t, ht⟩
        injection ht with h1 h2
        exact ⟨h1.symm, t, h2⟩

theorem containsSub_iff (h n : List Char) :
    containsSub h n = true ↔ ∃ pre post, h = pre ++ n ++ post := by
  induction h with
  | nil =>
    simp only [containsSub, List.isEmpty_iff]
    constructor
    · rintro rfl
      exact ⟨[], [], rfl⟩
    · rintro ⟨pre, post, hp⟩
      rcases List.append_eq_nil.mp hp.symm with ⟨h1, -⟩
      rcases List.append_eq_nil.mp h1 with ⟨-, h3⟩
      exact h3
  | cons c t ih =>
    simp only [containsSub, Bool.or_eq_true]
    constructor
    · rintro (hm | hc)
      · obtain ⟨post, hpost⟩ := (headMatch_iff n (c :: t)).mp hm
        exact ⟨[], post, by simpa using hpost⟩
      · obtain ⟨pre, post, rfl⟩ := ih.mp hc
        exact ⟨c :: pre, post, rfl⟩
    · rintro ⟨pre, post, hp⟩
      cases pre with
      | nil =>
        exact Or.inl ((headMatch_iff n (c :: t)).mpr ⟨post, by simpa using hp⟩)
      | cons p ps =>
        injection hp with h1 h2
        exact Or.inr (ih.mpr ⟨ps, post, h2⟩)

/-- C6: for a non-empty `preferredGenres` string, the genre filter splits
on commas, trims each part, and keeps exactly the books whose genre
case-insensitively contains one of the parts as a substring; in
particular genre "Historical Fiction" matches filter "fiction". -/
theorem genre_filter_spec (books : List Book) (reviews : List Review)
    (g : String) (b : Book) (hg : g ≠ "") :
    (b ∈ candidates books reviews (some g) none none ↔
      b ∈ books ∧ ∃ p ∈ (splitComma g.data).map trimChars,
        ∃ pre post, lowerChars b.genre.data = pre ++ lowerChars p ++ post) ∧
    genreKeep "fiction" histBook = true := by
  refine ⟨?_, by decide⟩
  rw [candidates, List.mem_filter]
  have hk : keepBook reviews (some g) none none b = genreKeep g b := by
    simp [keepBook, hg]
  simp only [hk, genreKeep, List.any_eq_true]
  constructor
  · rintro ⟨hbb, p, hp, hcs⟩
    exact ⟨hbb, p, hp, (containsSub_iff _ _).mp hcs⟩
  · rintro ⟨hbb, p, hp, hcs⟩
    exact ⟨hbb, p, hp, (containsSub_iff _ _).mpr hcs⟩

/-- C6 witness: the "Historical Fiction" book under the filter "fiction". -/
theorem genre_filter_spec_witness :
    (histBook ∈ candidates [histBook] [] (some "fiction") none none ↔
      histBook ∈ [histBook] ∧ ∃ p ∈ (splitComma "fiction".data).map trimChars,
        ∃ pre post, lowerChars histBook.genre.data = pre ++ lowerChars p ++ post) ∧
    genreKeep "fiction" histBook = true :=
  genre_filter_spec [histBook] [] "fiction" histBook (by decide)

/-- C2: when the candidate set is non-empty, the recommendation result is
the candidates sorted by average rating descending (a book with no reviews
sorting as average `0`), ties broken by book id descending, truncated to
the first 10; in particular books with average ratings `[3, 5, 5]` and ids
`[1, 2, 3]` come back in order `[3, 2, 1]`. -/
theorem recommend_ordering (books : List Book) (reviews : List Review)
    (pg : Option String) (mr : Option ℚ) (uid : Option String)
    (h : candidates books reviews pg mr uid ≠ []) :
    (recommend books reviews pg mr uid).recommendations
        = (List.insertionSort (recRel reviews) (candidates books reviews pg mr uid)).take 10 ∧
    List.Sorted (recRel reviews) (recommend books reviews pg mr uid).recommendations ∧
    (List.insertionSort (recRel reviews) (candidates books reviews pg mr uid)).Perm
        (candidates books reviews pg mr uid) ∧
    (recommend books reviews pg mr uid).recommendations.length ≤ 10 ∧
    (recommend [demoB1, demoB2, demoB3] demoReviews none none none).recommendations.map Book.id
        = [3, 2, 1] := by
  have hs : List.insertionSort (recRel reviews) (candidates books reviews pg mr uid) ≠ [] :=
    fun hh => h (by simpa [List.length_insertionSort] using congrArg List.length hh)
  have hrec : (recommend books reviews pg mr uid).recommendations
      = (List.insertionSort (recRel reviews) (candidates books reviews pg mr uid)).take 10 := by
    simp [recommend, rankBooks, hs]
  refine ⟨hrec, ?_, List.perm_insertionSort _ _, ?_, ?_⟩
  · rw [hrec]
    exact List.Pairwise.sublist (List.take_sublist _ _) (List.sorted_insertionSort _ _)
  · rw [hrec]
    exact List.length_take_le _ _
  · have hc : candidates [demoB1, demoB2, demoB3] demoReviews none none none
        = [demoB1, demoB2, demoB3] := by decide
    have h1 : avgOrZero demoReviews demoB1 = 3 := by
      norm_num [avgOrZero, bookReviews, avgRating, demoReviews, demoB1]
    have h2 : avgOrZero demoReviews demoB2 = 5 := by
      norm_num [avgOrZero, bookReviews, avgRating, demoReviews, demoB2]
    have h3 : avgOrZero demoReviews demoB3 = 5 := by
      norm_num [avgOrZero, bookReviews, avgRating, demoReviews, demoB3]
    have hid1 : demoB1.id = 1 := rfl
    have hid2 : demoB2.id = 2 := rfl
    have hid3 : demoB3.id = 3 := rfl
    norm_num [recommend, rankBooks, hc, List.insertionSort, List.orderedInsert, recRel,
      h1, h2, h3, hid1, hid2, hid3]

/-- C2 witness: the demo catalog has a non-empty candidate set. -/
theorem recommend_ordering_witness :
    (recommend [demoB1, demoB2, demoB3] demoReviews none none none).recommendations
        = (List.insertionSort (recRel demoReviews)
            (candidates [demoB1, demoB2, demoB3] demoReviews none none none)).take 10 ∧
    List.Sorted (recRel demoReviews)
        (recommend [demoB1, demoB2, demoB3] demoReviews none none none).recommendations ∧
    (List.insertionSort (recRel demoReviews)
        (candidates [demoB1, demoB2, demoB3] demoReviews none none none)).Perm
        (candidates [demoB1, demoB2, demoB3] demoReviews none none none) ∧
    (recommend [demoB1, demoB2, demoB3] demoReviews none none none).recommendations.length ≤ 10 ∧
    (recommend [demoB1, demoB2, demoB3] demoReviews none none none).recommendations.map Book.id
        = [3, 2, 1] :=
  recommend_ordering [demoB1, demoB2, demoB3] demoReviews none none none (by decide)

/-- C7 counterexample: with `minRating = 0` given and a non-empty candidate
set, the claim predicts the reason string carries " with rating >= 0.0",
but the code's Python truthiness test (`if min_rating`) treats `0.0` as
falsy and omits the rating text. -/
theorem reason_min_rating_zero_cx :
    (recommend [demoB1] [rvB1] none (some 0) none).reason
        = "Recommended based on your preferences: all genres" ∧
    (recommend [demoB1] [rvB1] none (some 0) none).reason
        ≠ "Recommended based on your preferences: all genres with rating >= 0.0" := by
  have hk : ratingKeep [rvB1] 0 demoB1 = true :=
    (ratingKeep_eq_true_iff [rvB1] 0 demoB1).mpr
      ⟨by decide, by norm_num [bookReviews, avgRating, rvB1, demoB1]⟩
  have hc : candidates [demoB1] [rvB1] none (some 0) none = [demoB1] := by
    simp [candidates, keepBook, hk]
  have hreason : (recommend [demoB1] [rvB1] none (some 0) none).reason
      = "Recommended based on your preferences: " ++ genreText none ++ ratingText (some 0) := by
    simp [recommend, hc, rankBooks, List.insertionSort, List.orderedInsert]
  have hstr : "Recommended based on your preferences: " ++ genreText none ++ ratingText (some 0)
      = "Recommended based on your preferences: all genres" := by
    rw [show genreText none = "all genres" from rfl,
      show ratingText (some 0) = "" from by simp [ratingText]]
    decide
  rw [hreason, hstr]
  exact ⟨rfl, by decide⟩

/-- C7 amended: when the candidate set is non-empty the reason string is
"Recommended based on your preferences: " followed by the original
`preferredGenres` string (or "all genres" when absent or empty), followed
by " with rating >= {minRating}" only when `minRating` was given and is
non-zero; for `minRating = 0` (falsy in Python) the rating text is
omitted. -/
theorem reason_construction_amended (books : List Book) (reviews : List Review)
    (pg : Option String) (mr : Option ℚ) (uid : Option String)
    (h : candidates books reviews pg mr uid ≠ []) :
    (recommend books reviews pg mr uid).reason
      = "Recommended based on your preferences: " ++
        (match pg with
         | some g => if g = "" then "all genres" else g
         | none => "all genres") ++
        (match mr with
         | some m => if m = 0 then "" else " with rating >= " ++ pyFloatRepr m
         | none => "") := by
  have hs : List.insertionSort (recRel reviews) (candidates books reviews pg mr uid) ≠ [] :=
    fun hh => h (by simpa [List.length_insertionSort] using congrArg List.length hh)
  have hrec : (recommend books reviews pg mr uid).reason
      = "Recommended based on your preferences: " ++ genreText pg ++ ratingText mr := by
    simp [recommend, rankBooks, hs]
  rw [hrec]
  cases pg <;> cases mr <;> simp [genreText, ratingText]

/-- C7 amended witness: no filters, one book — the reason is the genre
text alone. -/
theorem reason_construction_amended_witness :
    (recommend [demoB1] [] none none none).reason
      = "Recommended based on your preferences: " ++
        (match (none : Option String) with
         | some g => if g = "" then "all genres" else g
         | none => "all genres") ++
        (match (none : Option ℚ) with
         | some m => if m = 0 then "" else " with rating >= " ++ pyFloatRepr m
         | none => "") :=
  reason_construction_amended [demoB1] [] none none none (by decide)

end BookMgmt
